import Mathlib

/-!
Verification of the awsebcli claims against a shallow embedding of the
repository's code: the bundled botocore `client.py`, the EB CLI operation
helper `commonops.wait_for_success_events`, and `lib/elb.py`.
Definitions are translated from the Python source; collaborators that live
outside the given sources (serializer, endpoint transport, event-emitter
internals, waiter module, retry handler factory) are either abstract
function parameters or, where a claim depends on their behaviour, modelled
from the specification and marked as such in their doc comments.
-/

namespace AwsEbcli

/-- An association-list lookup mirroring a Python `dict` access for the
small string-keyed mappings the client code manipulates (first binding
wins; the code never builds duplicate keys except where noted). -/
def assoc (k : String) : List (String × α) → Option α
  | [] => none
  | (k2, v) :: rest => if k = k2 then some v else assoc k rest

/-! ## `_create_api_method` / `_api_call` (claims C1 and C2)

`_api_call` in `bundled/botocore/client.py` is straight-line code: it emits
`before-parameter-build`, serializes, emits `before-call`, sends the request,
emits `after-call`, then checks the HTTP status code.  We thread an explicit
step log through the computation so that the order of effects is part of the
embedding, and return the Python result as an `Except` (raised `ClientError`
versus returned parsed response). -/

/-- An HTTP response as `_api_call` sees it: only `status_code` is read. -/
structure HttpResponse where
  status_code : Nat
deriving DecidableEq

/-- A parsed service response (opaque payload for the dispatch logic). -/
abbrev ParsedResponse := List (String × String)

/-- Caller keyword arguments to an operation method. -/
abbrev Params := List (String × String)

/-- The serialized request dict produced by `serialize_to_request`. -/
abbrev RequestDict := List (String × String)

/-- `botocore.exceptions.ClientError(parsed_response, operation_name)`. -/
structure ClientError where
  error_response : ParsedResponse
  operation_name : String
deriving DecidableEq

/-- The keyword payload `_api_call` passes to each `emit`: the raw caller
params and the operation model for `before-parameter-build`, the serialized
request dict and the request signer for `before-call`, and the http
response and parsed result for `after-call`.  The operation model is
represented by the operation name it models, the signer by its object
token. -/
inductive EmitPayload where
  | beforeParameterBuild (params : Params) (model : String)
  | beforeCall (model : String) (params : RequestDict)
      (request_signer : Nat)
  | afterCall (http_response : HttpResponse) (parsed : ParsedResponse)
      (model : String)
deriving DecidableEq

/-- One observable step of `_api_call`, in program order: an event emission
(with its full event name and keyword payload), the serializer call, the
endpoint send, and the final status-code check. -/
inductive Step where
  | emit (event_name : String) (payload : EmitPayload)
  | serializeParams
  | sendRequest
  | statusCheck
deriving DecidableEq

/-- The collaborators a `BaseClient` instance gives `_api_call`: the service
model's endpoint prefix, the serializer's `serialize_to_request` and the
endpoint's `make_request` (both defined outside `client.py`, hence abstract
functions here), and the request signer's object token. -/
structure ApiClient where
  endpointPfx : String
  serialize_to_request : Params → RequestDict
  make_request : RequestDict → HttpResponse × ParsedResponse
  request_signer : Nat

/-- Append a step to the log (the log records effects in execution order). -/
def logStep (s : Step) (log : List Step) : List Step := log ++ [s]

/-- Shallow embedding of `_api_call` from `_create_api_method`: returns the
step log together with the Python outcome (`Except.error` is a raised
`ClientError`, `Except.ok` a normal return of the parsed response). -/
def apiCall (c : ApiClient) (operation_name : String) (kwargs : Params) :
    List Step × Except ClientError ParsedResponse :=
  let log := ([] : List Step)
  let ev1 := "before-parameter-build." ++ c.endpointPfx ++ "." ++ operation_name
  let log := logStep
    (Step.emit ev1 (EmitPayload.beforeParameterBuild kwargs operation_name))
    log
  let request_dict := c.serialize_to_request kwargs
  let log := logStep Step.serializeParams log
  let ev2 := "before-call." ++ c.endpointPfx ++ "." ++ operation_name
  let log := logStep
    (Step.emit ev2
      (EmitPayload.beforeCall operation_name request_dict c.request_signer))
    log
  let resp := c.make_request request_dict
  let log := logStep Step.sendRequest log
  let ev3 := "after-call." ++ c.endpointPfx ++ "." ++ operation_name
  let log := logStep
    (Step.emit ev3 (EmitPayload.afterCall resp.1 resp.2 operation_name)) log
  let log := logStep Step.statusCheck log
  if 300 ≤ resp.1.status_code then
    (log, Except.error ⟨resp.2, operation_name⟩)
  else
    (log, Except.ok resp.2)

/-- C1: on every operation call, a transport status code ≥ 300 makes the
dispatch raise a `ClientError` built from the parsed error response and the
operation name (never returning a result), and a status code < 300 makes it
return the parsed response unchanged. -/
theorem apiCall_status_dispatch (c : ApiClient) (operation_name : String)
    (kwargs : Params) :
    (300 ≤ (c.make_request (c.serialize_to_request kwargs)).1.status_code →
      (apiCall c operation_name kwargs).2 =
        Except.error ⟨(c.make_request (c.serialize_to_request kwargs)).2,
                      operation_name⟩) ∧
    ((c.make_request (c.serialize_to_request kwargs)).1.status_code < 300 →
      (apiCall c operation_name kwargs).2 =
        Except.ok (c.make_request (c.serialize_to_request kwargs)).2) := by
  constructor
  · intro h
    simp [apiCall, h]
  · intro h
    simp [apiCall, Nat.not_le.mpr h]

/-- A concrete failing client: transport always answers 404 with a parsed
error body. -/
def demoClient404 : ApiClient where
  endpointPfx := "elasticbeanstalk"
  serialize_to_request := fun p => p
  make_request := fun _ => (⟨404⟩, [("Error", "Throttling")])
  request_signer := 7

theorem apiCall_status_dispatch_witness :
    (300 ≤ (demoClient404.make_request
        (demoClient404.serialize_to_request [])).1.status_code) ∧
    (apiCall demoClient404 "DescribeEvents" []).2 =
      Except.error ⟨[("Error", "Throttling")], "DescribeEvents"⟩ :=
  ⟨by decide, (apiCall_status_dispatch demoClient404 "DescribeEvents" []).1
      (by decide)⟩

/-- C2: every operation call performs exactly this ordered sequence of
steps: emit `before-parameter-build.<endpointPrefix>.<OperationName>` with
the raw caller parameters and the operation model, serialize the
parameters, emit `before-call.<endpointPrefix>.<OperationName>` with the
serialized request dict and the request signer, send the request, emit
`after-call.<endpointPrefix>.<OperationName>` with the http response and
parsed result, then the status-code check; in particular serialization
never precedes the `before-parameter-build` event and no lifecycle event is
emitted out of this order. -/
theorem apiCall_event_order (c : ApiClient) (operation_name : String)
    (kwargs : Params) :
    (apiCall c operation_name kwargs).1 =
      [Step.emit ("before-parameter-build." ++ c.endpointPfx ++ "."
          ++ operation_name)
         (EmitPayload.beforeParameterBuild kwargs operation_name),
       Step.serializeParams,
       Step.emit ("before-call." ++ c.endpointPfx ++ "." ++ operation_name)
         (EmitPayload.beforeCall operation_name
           (c.serialize_to_request kwargs) c.request_signer),
       Step.sendRequest,
       Step.emit ("after-call." ++ c.endpointPfx ++ "." ++ operation_name)
         (EmitPayload.afterCall
           (c.make_request (c.serialize_to_request kwargs)).1
           (c.make_request (c.serialize_to_request kwargs)).2
           operation_name),
       Step.statusCheck] := by
  simp only [apiCall, logStep, List.nil_append, List.cons_append,
    List.append_nil]
  split <;> rfl

/-! ## Pagination methods (claim C3) and waiter methods (claim C7)

`can_paginate` lazily loads the service's `.paginators` file on first use
and caches it in the per-client `self._cache` dict, caching the empty
mapping on `DataNotFoundError`; `get_paginator` raises
`OperationNotPageableError` exactly when `can_paginate` is false.
`_get_waiter_config` does the same lazy load for the `.waiters` file, and
`get_waiter` raises `ValueError` when the config is absent/empty or the
name is not among the `xform_name`-normalized waiter names. -/

/-- A single operation's entry in the `.paginators` file. -/
abbrev PageEntry := List (String × String)

/-- The `pagination` mapping of a service's `.paginators` file. -/
abbrev PageConfig := List (String × PageEntry)

/-- One waiter's configuration entry. -/
abbrev WaiterEntry := List (String × String)

/-- A loaded `.waiters` file: its `waiters` mapping (waiter name to entry).
`WaiterModel(config).waiter_names` is the list of these keys. -/
structure WaiterConfig where
  waiters : List (String × WaiterEntry)
deriving DecidableEq

/-- The per-client `self._cache` dict, restricted to the two keys the code
stores there.  `none` means the key is absent; for pagination, load failure
is cached as `some []` (the empty mapping); for waiters, `some none` caches
the empty (falsy) dict that a `DataNotFoundError` leaves behind. -/
structure ClientCache where
  page_config : Option PageConfig := none
  waiter_config : Option (Option WaiterConfig) := none
deriving DecidableEq

/-- `botocore.paginate.Paginator(bound_method, page_config_entry)`: we keep
the operation name (standing for the bound client method) and the config
entry it was built from. -/
structure Paginator where
  operation_name : String
  page_entry : PageEntry
deriving DecidableEq

/-- Outcome of `get_paginator`: a paginator, or a raised
`OperationNotPageableError`. -/
inductive PagResult where
  | ok (p : Paginator)
  | operationNotPageableError (operation_name : String)
deriving DecidableEq

/-- Shallow embedding of `can_paginate`: `loader` is
`loader.load_data('aws/<service>/<version>.paginators')['pagination']`
(`none` = `DataNotFoundError`), `name_mapping` the py-name to
OperationName mapping built by `_create_name_mapping`.  Returns the boolean
together with the updated client cache. -/
def can_paginate (loader : Option PageConfig) (name_mapping : String → String)
    (cache : ClientCache) (operation_name : String) : Bool × ClientCache :=
  let cache :=
    match cache.page_config with
    | some _ => cache
    | none =>
      match loader with
      | some page_config => { cache with page_config := some page_config }
      | none => { cache with page_config := some [] }
  let actual_operation_name := name_mapping operation_name
  ((assoc actual_operation_name (cache.page_config.getD [])).isSome, cache)

/-- Shallow embedding of `get_paginator`: raises
`OperationNotPageableError` when `can_paginate` is false, otherwise builds a
`Paginator` from the cached page config's entry for the operation. -/
def get_paginator (loader : Option PageConfig) (name_mapping : String → String)
    (cache : ClientCache) (operation_name : String) : PagResult × ClientCache :=
  let r := can_paginate loader name_mapping cache operation_name
  if r.1 = false then
    (PagResult.operationNotPageableError operation_name, r.2)
  else
    let actual_operation_name := name_mapping operation_name
    let entry := (assoc actual_operation_name (r.2.page_config.getD [])).getD []
    (PagResult.ok ⟨operation_name, entry⟩, r.2)

/-- The page config `can_paginate` ends up consulting: the cached one if
present, otherwise the freshly loaded one (empty on load failure). -/
def effectivePageConfig (loader : Option PageConfig) (cache : ClientCache) :
    PageConfig :=
  match cache.page_config with
  | some cfg => cfg
  | none => loader.getD []

theorem can_paginate_eq (loader : Option PageConfig)
    (name_mapping : String → String) (cache : ClientCache)
    (operation_name : String) :
    can_paginate loader name_mapping cache operation_name =
      ((assoc (name_mapping operation_name)
          (effectivePageConfig loader cache)).isSome,
       { cache with page_config := some (effectivePageConfig loader cache) }) := by
  obtain ⟨pc, wc⟩ := cache
  cases pc <;> cases loader <;> simp [can_paginate, effectivePageConfig]

/-- C3: `can_paginate` returns true iff the lazily loaded page config
(cached in the client cache, the empty mapping when no paginators file
exists) has an entry for the operation; the cache afterwards holds exactly
that config; and `get_paginator` raises `OperationNotPageableError` exactly
when `can_paginate` is false, otherwise returning a paginator bound to the
operation's page-config entry. -/
theorem paginate_dispatch (loader : Option PageConfig)
    (name_mapping : String → String) (cache : ClientCache)
    (operation_name : String) :
    ((can_paginate loader name_mapping cache operation_name).1 = true ↔
      (assoc (name_mapping operation_name)
        (effectivePageConfig loader cache)).isSome = true) ∧
    ((can_paginate loader name_mapping cache operation_name).2.page_config =
      some (effectivePageConfig loader cache)) ∧
    ((get_paginator loader name_mapping cache operation_name).1 =
        PagResult.operationNotPageableError operation_name ↔
      (can_paginate loader name_mapping cache operation_name).1 = false) ∧
    (∀ entry,
      assoc (name_mapping operation_name)
          (effectivePageConfig loader cache) = some entry →
      (get_paginator loader name_mapping cache operation_name).1 =
        PagResult.ok ⟨operation_name, entry⟩) := by
  refine ⟨by rw [can_paginate_eq], by rw [can_paginate_eq], ?_, ?_⟩
  · cases hx : assoc (name_mapping operation_name)
        (effectivePageConfig loader cache) with
    | none => simp [get_paginator, can_paginate_eq, hx]
    | some v => simp [get_paginator, can_paginate_eq, hx]
  · intro entry hentry
    simp [get_paginator, can_paginate_eq, hentry]

theorem paginate_dispatch_witness :
    (assoc "DescribeEvents"
        (effectivePageConfig
          (some [("DescribeEvents", [("result_key", "Events")])]) {}) =
      some [("result_key", "Events")]) ∧
    (get_paginator (some [("DescribeEvents", [("result_key", "Events")])])
        (fun s => if s = "describe_events" then "DescribeEvents" else s)
        {} "describe_events").1 =
      PagResult.ok ⟨"describe_events", [("result_key", "Events")]⟩ :=
  ⟨by decide,
    (paginate_dispatch (some [("DescribeEvents", [("result_key", "Events")])])
        (fun s => if s = "describe_events" then "DescribeEvents" else s)
        {} "describe_events").2.2.2 [("result_key", "Events")] (by decide)⟩

/-- Shallow embedding of `_get_waiter_config`: lazily loads the `.waiters`
file into the client cache; a `DataNotFoundError` (loader `none`) is cached
as the empty dict, modelled by the inner `none`.  Returns the (possibly
cached) config and the updated cache. -/
def _get_waiter_config (wloader : Option WaiterConfig) (cache : ClientCache) :
    Option WaiterConfig × ClientCache :=
  match cache.waiter_config with
  | some data => (data, cache)
  | none =>
    match wloader with
    | some cfg => (some cfg, { cache with waiter_config := some (some cfg) })
    | none => (none, { cache with waiter_config := some none })

/-- Outcome of `get_waiter`: a waiter built by
`waiter.create_waiter_with_client` for the matched (original-case) waiter
name and its config entry, or a raised `ValueError`. -/
inductive WaiterResult where
  | ok (waiter_name : String) (entry : WaiterEntry)
  | valueError (msg : String)
deriving DecidableEq

/-- The dict `get_waiter` builds: `mapping[xform_name(name)] = name` over
`model.waiter_names`.  A Python dict keeps the last binding for a repeated
key, hence the lookup over the reversed association list. -/
def waiterMappingLookup (xform : String → String) (names : List String)
    (k : String) : Option String :=
  assoc k ((names.map (fun n => (xform n, n))).reverse)

/-- Shallow embedding of `get_waiter`: raises `ValueError` when the loaded
waiter config is absent/empty or the name is not among the
`xform_name`-normalized waiter names; otherwise returns the waiter built
from the matching entry.  `xform` abstracts botocore's `xform_name`
(CamelCase to snake_case), which lives outside the given sources. -/
def get_waiter (wloader : Option WaiterConfig) (xform : String → String)
    (cache : ClientCache) (waiter_name : String) :
    WaiterResult × ClientCache :=
  let r := _get_waiter_config wloader cache
  match r.1 with
  | none => (WaiterResult.valueError ("Waiter does not exist: " ++ waiter_name),
             r.2)
  | some cfg =>
    let names := cfg.waiters.map Prod.fst
    match waiterMappingLookup xform names waiter_name with
    | none => (WaiterResult.valueError
        ("Waiter does not exist: " ++ waiter_name), r.2)
    | some actual =>
      (WaiterResult.ok actual ((assoc actual cfg.waiters).getD []), r.2)

/-- C7: `get_waiter` raises `ValueError` when the lazily loaded waiter
config is absent or empty, or when the name is not among the
format-normalized waiter names; when the name matches a normalized entry it
returns the waiter built from the matching config entry. -/
theorem get_waiter_dispatch (wloader : Option WaiterConfig)
    (xform : String → String) (cache : ClientCache) (waiter_name : String) :
    ((_get_waiter_config wloader cache).1 = none →
      (get_waiter wloader xform cache waiter_name).1 =
        WaiterResult.valueError ("Waiter does not exist: " ++ waiter_name)) ∧
    (∀ cfg, (_get_waiter_config wloader cache).1 = some cfg →
      waiterMappingLookup xform (cfg.waiters.map Prod.fst) waiter_name =
        none →
      (get_waiter wloader xform cache waiter_name).1 =
        WaiterResult.valueError ("Waiter does not exist: " ++ waiter_name)) ∧
    (∀ cfg actual,
      (_get_waiter_config wloader cache).1 = some cfg →
      waiterMappingLookup xform (cfg.waiters.map Prod.fst) waiter_name =
        some actual →
      (get_waiter wloader xform cache waiter_name).1 =
        WaiterResult.ok actual ((assoc actual cfg.waiters).getD [])) := by
  refine ⟨?_, ?_, ?_⟩
  · intro h
    simp [get_waiter, h]
  · intro cfg hcfg hmap
    simp [get_waiter, hcfg, hmap]
  · intro cfg actual hcfg hmap
    simp [get_waiter, hcfg, hmap]

/-- A concrete waiter config with one waiter named `EnvironmentReady`,
normalized to `environment_ready`. -/
def demoWaiterConfig : WaiterConfig :=
  ⟨[("EnvironmentReady", [("delay", "15")])]⟩

theorem get_waiter_dispatch_witness :
    ((_get_waiter_config (some demoWaiterConfig) {}).1 =
        some demoWaiterConfig) ∧
    (waiterMappingLookup
        (fun n => if n = "EnvironmentReady" then "environment_ready" else n)
        (demoWaiterConfig.waiters.map Prod.fst) "environment_ready" =
      some "EnvironmentReady") ∧
    (get_waiter (some demoWaiterConfig)
        (fun n => if n = "EnvironmentReady" then "environment_ready" else n)
        {} "environment_ready").1 =
      WaiterResult.ok "EnvironmentReady" [("delay", "15")] :=
  ⟨by decide, by decide,
    (get_waiter_dispatch (some demoWaiterConfig)
        (fun n => if n = "EnvironmentReady" then "environment_ready" else n)
        {} "environment_ready").2.2 demoWaiterConfig "EnvironmentReady"
      (by decide) (by decide)⟩

/-! ## `_register_retries` (claim C4) -/

/-- A handler's identity (handlers are opaque callables; we track them by a
token). -/
abbrev Handler := String

/-- Modelled from the spec: botocore's hierarchical event emitter
(`hooks.py` is not among the given sources).  Per the spec, `register` with
a `unique_id` is a no-op when that id is already registered (re-registration
must not duplicate the handler); otherwise it appends the handler for the
event pattern.  Emitting an event fires the handlers registered against the
matching pattern, each once, in registration order. -/
structure EventEmitter where
  handlers : List (String × Handler × String)
deriving DecidableEq

/-- `register(event_name, handler, unique_id=...)`, modelled from the spec:
no-op when the `unique_id` is already present. -/
def EventEmitter.register (e : EventEmitter) (pat : String) (h : Handler)
    (unique_id : String) : EventEmitter :=
  if e.handlers.any (fun x => x.2.2 == unique_id) then e
  else ⟨e.handlers ++ [(pat, h, unique_id)]⟩

/-- The handlers fired, in order, when an event with this pattern is
emitted (modelled from the spec; each registered matching handler fires
once). -/
def EventEmitter.fired (e : EventEmitter) (event_name : String) :
    List Handler :=
  (e.handlers.filter (fun x => x.1 == event_name)).map (fun x => x.2.1)

/-- The retry section of the global `aws/_retry` file, opaque to the
registration logic. -/
abbrev RetryConfig := List (String × String)

/-- Shallow embedding of `_register_retries`, run by `_load_service_model`
on every load of a service model.  `original_config` is
`loader.load_data('aws/_retry')` (`none` models a falsy result, on which
the code returns without registering); `build_retry_config` abstracts
`_retry_config_translator.build_retry_config` and `create_retry_handler`
abstracts `_retry_handler_factory.create_retry_handler` (both outside the
given sources). -/
def _register_retries (original_config : Option RetryConfig)
    (build_retry_config : String → RetryConfig → RetryConfig)
    (create_retry_handler : RetryConfig → String → Handler)
    (endpointPfx : String) (emitter : EventEmitter) : EventEmitter :=
  match original_config with
  | none => emitter
  | some cfg =>
    let retry_config := build_retry_config endpointPfx cfg
    let handler := create_retry_handler retry_config endpointPfx
    emitter.register ("needs-retry." ++ endpointPfx) handler
      ("retry-config-" ++ endpointPfx)

theorem register_noop_of_unique_id_present (e : EventEmitter) (pat : String)
    (h : Handler) (uid : String)
    (hmem : e.handlers.any (fun x => x.2.2 == uid) = true) :
    e.register pat h uid = e := by
  simp [EventEmitter.register, hmem]

/-- C4: loading a service model registers the retry handler against
`needs-retry.<endpointPrefix>` under the unique id
`retry-config-<endpointPrefix>`, so that loading the same service model any
number of times (at least once) leaves exactly one registered retry handler
for that pattern, and an emitted matching event fires that handler exactly
once. -/
theorem register_retries_idempotent (cfg : RetryConfig)
    (build_retry_config : String → RetryConfig → RetryConfig)
    (create_retry_handler : RetryConfig → String → Handler)
    (endpointPfx : String) (n : Nat) (hn : 1 ≤ n) :
    ((_register_retries (some cfg) build_retry_config create_retry_handler
        endpointPfx)^[n] ⟨[]⟩).fired ("needs-retry." ++ endpointPfx) =
      [create_retry_handler (build_retry_config endpointPfx cfg)
        endpointPfx] := by
  set f := _register_retries (some cfg) build_retry_config
    create_retry_handler endpointPfx with hf
  set e1 : EventEmitter :=
    ⟨[("needs-retry." ++ endpointPfx,
       create_retry_handler (build_retry_config endpointPfx cfg) endpointPfx,
       "retry-config-" ++ endpointPfx)]⟩ with he1
  have hstep : f ⟨[]⟩ = e1 := by
    simp [hf, _register_retries, EventEmitter.register, he1]
  have hfix : f e1 = e1 := by
    simp [hf, _register_retries]
    apply register_noop_of_unique_id_present
    simp [he1]
  have hiter : ∀ m, 1 ≤ m → f^[m] ⟨[]⟩ = e1 := by
    intro m
    induction m with
    | zero => intro h; omega
    | succ k ih =>
      intro _
      rcases Nat.eq_zero_or_pos k with hk | hk
      · subst hk
        simpa [Function.iterate_one] using hstep
      · rw [Function.iterate_succ_apply']
        rw [ih hk, hfix]
  rw [hiter n hn]
  simp [EventEmitter.fired, he1]

theorem register_retries_idempotent_witness :
    1 ≤ 3 ∧
    ((_register_retries (some [("max_attempts", "5")])
        (fun _ c => c) (fun _ p => "retry-handler-" ++ p)
        "elasticbeanstalk")^[3] ⟨[]⟩).fired
      "needs-retry.elasticbeanstalk" = ["retry-handler-elasticbeanstalk"] :=
  ⟨by decide,
    register_retries_idempotent [("max_attempts", "5")] (fun _ c => c)
      (fun _ p => "retry-handler-" ++ p) "elasticbeanstalk" 3 (by decide)⟩

/-! ## `_get_signature_version_and_region` / `_get_client_args` (claim C5) -/

/-- A value in a scoped config file's section map: the per-service entry is
only consulted when it is a dict (`isinstance(service_config, dict)`). -/
inductive ConfigSectionValue where
  | dict (entries : List (String × String))
  | nonDict
deriving DecidableEq

/-- The resolved endpoint as `construct_endpoint` returns it: only its
`properties` mapping is consulted here. -/
structure EndpointConfig where
  properties : List (String × String)
deriving DecidableEq

/-- The slice of the service model that signature resolution reads: the
endpoint prefix and the declared default `signature_version`. -/
structure ServiceModelSig where
  endpointPfx : String
  signature_version : String
deriving DecidableEq

/-- The scoped config file: a mapping from section name (the service's
endpoint prefix) to a section value, or `None`. -/
abbrev ScopedConfig := Option (List (String × ConfigSectionValue))

/-- The truthy `signature_version` override a scoped config file carries
for a service, if any: present only when the section exists, is a dict, and
its `signature_version` entry is truthy (a non-empty string). -/
def scopedOverride (scoped_config : ScopedConfig) (epfx : String) :
    Option String :=
  match scoped_config with
  | none => none
  | some sc =>
    match assoc epfx sc with
    | some (ConfigSectionValue.dict entries) =>
      match assoc "signature_version" entries with
      | some override => if override = "" then none else some override
      | none => none
    | _ => none

/-- Shallow embedding of `_get_signature_version_and_region`'s signature
computation: starts from the service model default, overrides it with the
endpoint's `signatureVersion` property when present, then overrides that
with a truthy scoped-config `signature_version` entry when present. -/
def _get_signature_version (sm : ServiceModelSig) (ec : EndpointConfig)
    (scoped_config : ScopedConfig) : String :=
  let signature_version := sm.signature_version
  let signature_version :=
    (assoc "signatureVersion" ec.properties).getD signature_version
  match scopedOverride scoped_config sm.endpointPfx with
  | some override => override
  | none => signature_version

/-- The `client_config` override applied afterwards in `_get_client_args`:
`client_config.signature_version` wins whenever a config object was passed
and its `signature_version` is not `None`. -/
def chooseSignatureVersion (sm : ServiceModelSig) (ec : EndpointConfig)
    (scoped_config : ScopedConfig) (client_config : Option (Option String)) :
    String :=
  match client_config with
  | some (some v) => v
  | _ => _get_signature_version sm ec scoped_config

/-- The precedence order as the claim states it, written from the spec's
words for comparison with the code's choice: (a) the client-config
override, then (b) the endpoint property, then (c) the scoped-config
override, then (d) the service model default. -/
def claimedSignatureVersionPrecedence (sm : ServiceModelSig)
    (ec : EndpointConfig) (scoped_config : ScopedConfig)
    (client_config : Option (Option String)) : String :=
  match client_config with
  | some (some v) => v
  | _ =>
    match assoc "signatureVersion" ec.properties with
    | some v => v
    | none =>
      match scopedOverride scoped_config sm.endpointPfx with
      | some v => v
      | none => sm.signature_version

/-- The precedence order the code actually implements: (a) the
client-config override, then (c) the scoped-config override, then (b) the
endpoint property, then (d) the service model default. -/
def actualSignatureVersionPrecedence (sm : ServiceModelSig)
    (ec : EndpointConfig) (scoped_config : ScopedConfig)
    (client_config : Option (Option String)) : String :=
  match client_config with
  | some (some v) => v
  | _ =>
    match scopedOverride scoped_config sm.endpointPfx with
    | some v => v
    | none =>
      match assoc "signatureVersion" ec.properties with
      | some v => v
      | none => sm.signature_version

/-- A service whose endpoint carries a `signatureVersion` property while
the scoped config file also carries a `signature_version` override. -/
def c5Model : ServiceModelSig := ⟨"s3", "v2"⟩

def c5Endpoint : EndpointConfig := ⟨[("signatureVersion", "v4")]⟩

def c5Scoped : ScopedConfig :=
  some [("s3", ConfigSectionValue.dict [("signature_version", "s3v4")])]

/-- C5 counterexample: when both the resolved endpoint's
`signatureVersion` property and the scoped config file's
`signature_version` entry are present, the code picks the scoped-config
value, while the claimed precedence (endpoint property above scoped
config) would pick the endpoint property's value. -/
theorem signature_version_precedence_counterexample :
    chooseSignatureVersion c5Model c5Endpoint c5Scoped none = "s3v4" ∧
    claimedSignatureVersionPrecedence c5Model c5Endpoint c5Scoped none =
      "v4" ∧
    ("s3v4" : String) ≠ "v4" := by
  refine ⟨rfl, rfl, by decide⟩

/-- C5 (amended): the signature version is chosen by this precedence,
highest first: (a) a `signature_version` explicitly passed in the
`client_config`; (c) the truthy `signature_version` entry of the scoped
config file's section for the service's endpoint prefix; (b) the
`signatureVersion` property of the resolved endpoint; (d) the service
model's declared default. -/
theorem signature_version_precedence_amended (sm : ServiceModelSig)
    (ec : EndpointConfig) (scoped_config : ScopedConfig)
    (client_config : Option (Option String)) :
    chooseSignatureVersion sm ec scoped_config client_config =
      actualSignatureVersionPrecedence sm ec scoped_config client_config := by
  cases client_config with
  | some v =>
    cases v with
    | some s => rfl
    | none =>
      simp only [chooseSignatureVersion, actualSignatureVersionPrecedence,
        _get_signature_version]
      cases hso : scopedOverride scoped_config sm.endpointPfx <;>
        cases hep : assoc "signatureVersion" ec.properties <;>
          simp [hso, hep]
  | none =>
    simp only [chooseSignatureVersion, actualSignatureVersionPrecedence,
      _get_signature_version]
    cases hso : scopedOverride scoped_config sm.endpointPfx <;>
      cases hep : assoc "signatureVersion" ec.properties <;>
        simp [hso, hep]

/-! ## `clone_client` / `ClientMeta.__copy__` (claim C6)

Python objects are shared by reference and the event emitter is mutated in
place by `register`, so we model a heap of emitter objects (each a handler
list) addressed by index.  `copy.copy` on the emitter allocates a fresh
object holding a snapshot of the handler list; this is what
`ClientMeta.__copy__` invokes via `copy.copy(self.events)`. -/

/-- A reference to an emitter object in the store. -/
abbrev EmitterRef := Nat

/-- The heap of emitter objects: index `r` holds emitter `r`'s handler
list. -/
structure EmitterStore where
  emitters : List (List Handler)
deriving DecidableEq

/-- The handler list of the emitter object behind a reference. -/
def EmitterStore.handlerList (s : EmitterStore) (r : EmitterRef) :
    List Handler :=
  s.emitters.getD r []

/-- In-place `register` on the emitter object behind a reference. -/
def EmitterStore.registerOn (s : EmitterStore) (r : EmitterRef)
    (h : Handler) : EmitterStore :=
  ⟨s.emitters.set r (s.handlerList r ++ [h])⟩

/-- Modelled from the spec: `copy.copy` on the event emitter (the emitter
class is outside the given sources) allocates a fresh, independent emitter
object whose handler list is a snapshot of the original's. -/
def EmitterStore.copyEmitter (s : EmitterStore) (r : EmitterRef) :
    EmitterStore × EmitterRef :=
  (⟨s.emitters ++ [s.handlerList r]⟩, s.emitters.length)

/-- The collaborators a `BaseClient` holds, as object references: the
first four are shared verbatim by `clone_client`; `events` is the
`ClientMeta`'s emitter reference. -/
structure BClient where
  serializer : Nat
  endpoint : Nat
  responseParserRef : Nat
  request_signer : Nat
  events : EmitterRef
deriving DecidableEq

/-- Shallow embedding of `clone_client` with no overrides: every `None`
override falls back to the client's own attribute, the constructor gets
`event_emitter=None`, and `new_object.meta = copy.copy(self.meta)` runs
`ClientMeta.__copy__`, which copies the emitter (fresh object, snapshotted
handler list). -/
def clone_client (s : EmitterStore) (c : BClient) : EmitterStore × BClient :=
  let r := s.copyEmitter c.events
  (r.1, { c with events := r.2 })

theorem getD_set_ne (l : List (List Handler)) (i j : Nat)
    (a : List Handler) (h : i ≠ j) :
    (l.set i a).getD j [] = l.getD j [] := by
  simp [List.getD, List.getElem?_set_ne h]

theorem getD_append_len (l : List (List Handler)) (x : List Handler) :
    (l ++ [x]).getD l.length [] = x := by
  simp [List.getD]

/-- C6: `clone_client` with no overrides shares the serializer, endpoint,
response parser and request signer by reference, while the clone's emitter
is a fresh object whose handler list is a snapshot of the original's at
clone time; registering a handler on the clone's emitter never changes the
original emitter's handler list (so the new handler never fires on the
original's events), and vice versa. -/
theorem clone_client_isolation (s : EmitterStore) (c : BClient)
    (href : c.events < s.emitters.length) :
    ((clone_client s c).2.serializer = c.serializer ∧
     (clone_client s c).2.endpoint = c.endpoint ∧
     (clone_client s c).2.responseParserRef = c.responseParserRef ∧
     (clone_client s c).2.request_signer = c.request_signer) ∧
    (clone_client s c).2.events ≠ c.events ∧
    (clone_client s c).1.handlerList (clone_client s c).2.events =
      s.handlerList c.events ∧
    (∀ h, ((clone_client s c).1.registerOn (clone_client s c).2.events
        h).handlerList c.events =
      (clone_client s c).1.handlerList c.events) ∧
    (∀ h, ((clone_client s c).1.registerOn c.events h).handlerList
        (clone_client s c).2.events =
      (clone_client s c).1.handlerList (clone_client s c).2.events) := by
  have hne : s.emitters.length ≠ c.events := Nat.ne_of_gt href
  refine ⟨⟨rfl, rfl, rfl, rfl⟩, ?_, ?_, ?_, ?_⟩
  · simpa only [clone_client, EmitterStore.copyEmitter] using hne
  · simp only [clone_client, EmitterStore.copyEmitter,
      EmitterStore.handlerList]
    exact getD_append_len s.emitters (s.emitters.getD c.events [])
  · intro h
    simp only [clone_client, EmitterStore.copyEmitter,
      EmitterStore.registerOn, EmitterStore.handlerList]
    exact getD_set_ne _ s.emitters.length c.events _ hne
  · intro h
    simp only [clone_client, EmitterStore.copyEmitter,
      EmitterStore.registerOn, EmitterStore.handlerList]
    exact getD_set_ne _ c.events s.emitters.length _ hne.symm

/-- A one-emitter heap and a client whose collaborators are objects
1, 2, 3, 4 and whose emitter (holding one registered handler) is object
0. -/
def demoStore : EmitterStore := ⟨[["sign-handler"]]⟩

def demoBClient : BClient := ⟨1, 2, 3, 4, 0⟩

theorem clone_client_isolation_witness :
    demoBClient.events < demoStore.emitters.length ∧
    (((clone_client demoStore demoBClient).1.registerOn
        (clone_client demoStore demoBClient).2.events
        "clone-only-handler").handlerList demoBClient.events =
      (clone_client demoStore demoBClient).1.handlerList
        demoBClient.events) :=
  ⟨by decide,
    (clone_client_isolation demoStore demoBClient (by decide)).2.2.2.1
      "clone-only-handler"⟩

/-! ## `wait_for_success_events` (claims C8 and C10)

`operations/commonops.py` polls `elasticbeanstalk.get_new_events` in two
loops: a first loop that spins (sleeping `sleep_time` between polls) until
a first non-empty batch of events arrives and tests only the last event of
that batch, and a second loop that, while the elapsed wall-clock time is
below `timedelta(seconds=timeout_in_minutes * 60)`, sleeps, polls, and
tests each new event in reversed order.  Falling out of the second loop
raises `TimeoutError`.  We model wall-clock time as the seconds accumulated
by the `time.sleep(sleep_time)` calls, the service as the indexed sequence
of poll results (the message list each `get_new_events` call returns), and
`_is_success_string` (whose match strings live in `resources/strings.py`,
outside the given sources) as an abstract classification of a message into
success, failure (it raises `ServiceError`), or neither.  The loops are
given explicit fuel; a `none` result means the fuel ran out before the
function returned or raised. -/

/-- What `_is_success_string` decides about one event message. -/
inductive MsgClass where
  | success
  | failure
  | neither
deriving DecidableEq

/-- How `wait_for_success_events` ends: a normal return, a `ServiceError`
raised by `_is_success_string`, or the final `TimeoutError`. -/
inductive WaitOutcome where
  | done
  | serviceError
  | timeoutError
deriving DecidableEq

/-- The second loop's per-batch scan: events are visited in reversed order
and the first success returns, the first failure raises. -/
def scanEvents (classify : String → MsgClass) : List String →
    Option WaitOutcome
  | [] => none
  | m :: rest =>
    match classify m with
    | MsgClass.success => some WaitOutcome.done
    | MsgClass.failure => some WaitOutcome.serviceError
    | MsgClass.neither => scanEvents classify rest

/-- The second loop of `wait_for_success_events`: while the elapsed time
`t` is below the budget, sleep (advancing `t` by `sleep_time`), poll
(consuming call index `k`), and scan the batch; leaving the loop yields
the `TimeoutError`. -/
def waitLoop2 (env : Nat → List String) (classify : String → MsgClass)
    (sleep_time budget : Nat) : Nat → Nat → Nat → Option WaitOutcome
  | 0, _, _ => none
  | fuel + 1, k, t =>
    if t < budget then
      match scanEvents classify (env k).reverse with
      | some o => some o
      | none => waitLoop2 env classify sleep_time budget fuel (k + 1)
          (t + sleep_time)
    else
      some WaitOutcome.timeoutError

/-- The first loop of `wait_for_success_events`: poll until a non-empty
batch arrives (sleeping between empty polls, with no deadline check), test
only the last event of that batch, then fall into the second loop. -/
def waitLoop1 (env : Nat → List String) (classify : String → MsgClass)
    (sleep_time budget : Nat) : Nat → Nat → Nat → Option WaitOutcome
  | 0, _, _ => none
  | fuel + 1, k, t =>
    match env k with
    | [] => waitLoop1 env classify sleep_time budget fuel (k + 1)
        (t + sleep_time)
    | m :: rest =>
      match classify ((m :: rest).getLastD "") with
      | MsgClass.success => some WaitOutcome.done
      | MsgClass.failure => some WaitOutcome.serviceError
      | MsgClass.neither => waitLoop2 env classify sleep_time budget fuel
          (k + 1) t

/-- Shallow embedding of `wait_for_success_events`: a
`timeout_in_minutes` of `0` returns at once, `None` is replaced by `10`,
and otherwise the two polling loops run against a wall-clock budget of
`timeout_in_minutes * 60` seconds. -/
def wait_for_success_events (timeout_in_minutes : Option Nat)
    (sleep_time : Nat) (env : Nat → List String)
    (classify : String → MsgClass) (fuel : Nat) : Option WaitOutcome :=
  match timeout_in_minutes with
  | some 0 => some WaitOutcome.done
  | some m => waitLoop1 env classify sleep_time (m * 60) fuel 0 0
  | none => waitLoop1 env classify sleep_time (10 * 60) fuel 0 0

/-- C10: calling `wait_for_success_events` with `timeout_in_minutes = 0`
returns immediately — the result is a plain return, for any amount of
fuel, and is independent of what the service would have answered (no
service call is consulted); and `timeout_in_minutes = None` behaves exactly
as a 10-minute budget. -/
theorem wait_zero_timeout_and_none_default (sleep_time : Nat)
    (env env2 : Nat → List String) (classify : String → MsgClass)
    (fuel : Nat) :
    wait_for_success_events (some 0) sleep_time env classify fuel =
      some WaitOutcome.done ∧
    wait_for_success_events (some 0) sleep_time env classify fuel =
      wait_for_success_events (some 0) sleep_time env2 classify fuel ∧
    wait_for_success_events none sleep_time env classify fuel =
      wait_for_success_events (some 10) sleep_time env classify fuel :=
  ⟨rfl, rfl, rfl⟩

/-- The claim's guarantee fails on the environment whose every poll returns
no events: however much fuel the run is given (however long it runs), it
neither returns nor raises — the first loop never consults the deadline. -/
def emptyEnvDiverges : Prop :=
  ∀ fuel : Nat,
    wait_for_success_events (some 1) 5 (fun _ => [])
      (fun _ => MsgClass.neither) fuel = none

/-- C8 counterexample: with a 1-minute timeout and a service that never
returns events (so no event message ever matches a success or failure
string), `wait_for_success_events` never raises `TimeoutError` however far
past the deadline it runs: the initial poll loop has no deadline check and
loops indefinitely. -/
theorem wait_counterexample_empty_env_diverges : emptyEnvDiverges := by
  intro fuel
  have h : ∀ f k t, waitLoop1 (fun _ => []) (fun _ => MsgClass.neither)
      5 60 f k t = none := by
    intro f
    induction f with
    | zero => intro k t; rfl
    | succ n ih =>
      intro k t
      simpa [waitLoop1] using ih (k + 1) (t + 5)
  simpa [wait_for_success_events] using h fuel 0 0

theorem scanEvents_all_neither (classify : String → MsgClass)
    (l : List String) (h : ∀ m, m ∈ l → classify m = MsgClass.neither) :
    scanEvents classify l = none := by
  induction l with
  | nil => rfl
  | cons m rest ih =>
    have hm : classify m = MsgClass.neither := h m (List.mem_cons_self m rest)
    simpa [scanEvents, hm] using ih (fun x hx => h x (List.mem_cons_of_mem m hx))

theorem getLastD_mem (l : List String) (d : String) (h : l ≠ []) :
    l.getLastD d ∈ l := by
  induction l with
  | nil => exact absurd rfl h
  | cons a rest ih =>
    cases rest with
    | nil => simp [List.getLastD]
    | cons b r2 => simp [List.getLastD]

theorem waitLoop2_times_out (env : Nat → List String)
    (classify : String → MsgClass) (sleep_time budget : Nat)
    (hs : 0 < sleep_time)
    (hall : ∀ k m, m ∈ env k → classify m = MsgClass.neither) :
    ∀ d t k, budget - t ≤ d →
      ∃ fuel, waitLoop2 env classify sleep_time budget fuel k t =
        some WaitOutcome.timeoutError := by
  intro d
  induction d with
  | zero =>
    intro t k hle
    have hnot : ¬ t < budget := by omega
    exact ⟨1, by simp [waitLoop2, hnot]⟩
  | succ n ih =>
    intro t k hle
    by_cases hlt : t < budget
    · have hscan : scanEvents classify (env k).reverse = none :=
        scanEvents_all_neither classify (env k).reverse
          (fun m hm => hall k m (List.mem_reverse.mp hm))
      have hd : budget - (t + sleep_time) ≤ n := by omega
      obtain ⟨f, hf⟩ := ih (t + sleep_time) (k + 1) hd
      exact ⟨f + 1, by simp [waitLoop2, hlt, hscan, hf]⟩
    · exact ⟨1, by simp [waitLoop2, hlt]⟩

theorem waitLoop1_enters_loop2 (env : Nat → List String)
    (classify : String → MsgClass) (sleep_time budget : Nat)
    (hs : 0 < sleep_time)
    (hall : ∀ k msg, msg ∈ env k → classify msg = MsgClass.neither)
    (k t : Nat) (hk : env k ≠ []) :
    ∃ fuel, waitLoop1 env classify sleep_time budget fuel k t =
      some WaitOutcome.timeoutError := by
  obtain ⟨f, hf⟩ := waitLoop2_times_out env classify sleep_time budget hs
    hall budget t (k + 1) (Nat.sub_le _ _)
  refine ⟨f + 1, ?_⟩
  cases henv : env k with
  | nil => exact absurd henv hk
  | cons a rest =>
    have hlast : classify ((a :: rest).getLastD "") = MsgClass.neither := by
      apply hall k
      rw [henv]
      exact getLastD_mem (a :: rest) "" (by simp)
    simp only [waitLoop1, henv]
    rw [hlast]
    exact hf

theorem waitLoop1_times_out (env : Nat → List String)
    (classify : String → MsgClass) (sleep_time budget : Nat)
    (hs : 0 < sleep_time)
    (hall : ∀ k msg, msg ∈ env k → classify msg = MsgClass.neither) :
    ∀ j k t, env (k + j) ≠ [] →
      ∃ fuel, waitLoop1 env classify sleep_time budget fuel k t =
        some WaitOutcome.timeoutError := by
  intro j
  induction j with
  | zero =>
    intro k t hk
    exact waitLoop1_enters_loop2 env classify sleep_time budget hs hall k t hk
  | succ n ih =>
    intro k t hk
    cases henv : env k with
    | nil =>
      have hk2 : env (k + 1 + n) ≠ [] := by
        have harith : k + 1 + n = k + (n + 1) := by omega
        rw [harith]
        exact hk
      obtain ⟨f, hf⟩ := ih (k + 1) (t + sleep_time) hk2
      exact ⟨f + 1, by simp [waitLoop1, henv, hf]⟩
    | cons a rest =>
      exact waitLoop1_enters_loop2 env classify sleep_time budget hs hall k t
        (by simp [henv])

/-- C8 (amended): the deadline check lives only in the second poll loop:
provided some poll eventually returns a non-empty batch of events (the
initial loop, which has no deadline check, spins through the empty polls
before it and is then left), the sleep time is positive and the timeout is
a positive number of minutes, a run in which no event message ever matches
a success or failure string reaches the deadline check each iteration of
the second loop and raises `TimeoutError` in finite time. -/
theorem wait_times_out_after_first_events (env : Nat → List String)
    (classify : String → MsgClass) (sleep_time m : Nat)
    (hm : 0 < m) (hs : 0 < sleep_time)
    (hev : ∃ k, env k ≠ [])
    (hall : ∀ k msg, msg ∈ env k → classify msg = MsgClass.neither) :
    ∃ fuel, wait_for_success_events (some m) sleep_time env classify fuel =
      some WaitOutcome.timeoutError := by
  obtain ⟨k0, hk0⟩ := hev
  cases hm2 : m with
  | zero => omega
  | succ m2 =>
    have hk0b : env (0 + k0) ≠ [] := by simpa using hk0
    obtain ⟨f, hf⟩ := waitLoop1_times_out env classify sleep_time
      ((m2 + 1) * 60) hs hall k0 0 0 hk0b
    exact ⟨f, by simpa [wait_for_success_events] using hf⟩

theorem wait_times_out_witness :
    ∃ fuel,
      wait_for_success_events (some 1) 5
        (fun k => if k < 3 then [] else ["still updating"])
        (fun _ => MsgClass.neither) fuel = some WaitOutcome.timeoutError :=
  wait_times_out_after_first_events
    (fun k => if k < 3 then [] else ["still updating"])
    (fun _ => MsgClass.neither) 5 1 (by decide) (by decide)
    ⟨3, by simp⟩
    (fun k msg hmsg => rfl)

/-! ## `lib/elb.py` `get_health_of_instances` (claim C9)

The function runs `result = _make_api_call(...)` inside a `try`; the
`except ServiceError` block re-raises as `NotFoundError` only when the
message starts with the load-balancer-not-found response string, and
otherwise neither re-raises nor converts — control falls through to
`return result['InstanceStates']` with the local `result` never assigned.
We model the local as an `Option` that stays `none` exactly when the
assignment never ran. -/

/-- The `ServiceError` the AWS call layer raises (only its `message` is
read here). -/
structure ServiceErrorE where
  message : String
deriving DecidableEq

/-- The successful `describe-instance-health` response. -/
structure ElbApiResult where
  instanceStates : List String
deriving DecidableEq

/-- How `get_health_of_instances` ends: a normal return of
`result['InstanceStates']`, a raised `NotFoundError`, the unbound-local
failure from reading the never-assigned `result`, or a propagated
`ServiceError` (present in the outcome type so that its absence is a
statement about the code, not about the model). -/
inductive ElbOutcome where
  | ok (states : List String)
  | notFoundError (message : String)
  | unboundLocalError
  | serviceErrorRaised (e : ServiceErrorE)
deriving DecidableEq

/-- Shallow embedding of `get_health_of_instances`: `call` is the outcome
of `_make_api_call('describe-instance-health', ...)` and
`notFoundResponse` the `responses['loadbalancer.notfound']` string (defined
in `resources/strings.py`, outside the given sources).  The intermediate
`Except` value holds the state after the `try`/`except`: either a raised
`NotFoundError` or the local `result` (assigned or still unbound). -/
def get_health_of_instances (call : Except ServiceErrorE ElbApiResult)
    (notFoundResponse : String) : ElbOutcome :=
  let afterTry : Except ServiceErrorE (Option ElbApiResult) :=
    match call with
    | Except.ok r => Except.ok (some r)
    | Except.error e =>
      if e.message.startsWith notFoundResponse then Except.error e
      else Except.ok none
  match afterTry with
  | Except.error e => ElbOutcome.notFoundError e.message
  | Except.ok (some v) => ElbOutcome.ok v.instanceStates
  | Except.ok none => ElbOutcome.unboundLocalError

/-- C9: when the `describe-instance-health` call raises a `ServiceError`
whose message does not start with the load-balancer-not-found response
string, `get_health_of_instances` fails on the unbound local `result`: the
original `ServiceError` is never propagated to the caller. -/
theorem get_health_unbound_local (e : ServiceErrorE)
    (notFoundResponse : String)
    (h : e.message.startsWith notFoundResponse = false) :
    get_health_of_instances (Except.error e) notFoundResponse =
      ElbOutcome.unboundLocalError ∧
    ∀ e2, get_health_of_instances (Except.error e) notFoundResponse ≠
      ElbOutcome.serviceErrorRaised e2 := by
  constructor
  · simp [get_health_of_instances, h]
  · intro e2
    simp [get_health_of_instances, h]

theorem get_health_unbound_local_witness :
    (("Throttling" : String).startsWith "No Load Balancer" = false) ∧
    get_health_of_instances (Except.error ⟨"Throttling"⟩)
        "No Load Balancer" =
      ElbOutcome.unboundLocalError :=
  ⟨by rfl,
    (get_health_unbound_local ⟨"Throttling"⟩ "No Load Balancer" (by rfl)).1⟩

end AwsEbcli
